import Mathlib

/-!
Verification of the multi-provider file upload subsystem of the
Acadeno LMS backend.  The definitions below are a shallow embedding of
the JavaScript sources: `utils/fileUpload.js` (the `FileUploadUtils`
class), `config/fileUpload.js`, `services/storage/LocalStorageService.js`,
`services/storage/S3StorageService.js`,
`services/storage/CloudinaryStorageService.js` and
`services/FileUploadService.js`.  External effects (the `sharp` image
library, the `crypto` digest, the filesystem, the S3 and Cloudinary
SDK calls) are modelled as function-valued environment parameters; the
pure control flow, validation logic, record construction and error
wrapping are translated directly from the source.
-/

namespace Acadeno

/-- File contents are byte sequences. -/
abbrev Buffer := List Nat

/-- Model of the `AppError` class: a message plus an HTTP status code. -/
structure AppError where
  message : String
  statusCode : Nat
deriving DecidableEq, Repr

/-- JS `String.prototype.startsWith`. -/
def strStartsWith (s pre : String) : Bool :=
  List.isPrefixOf pre.data s.data

/-- JS `String.prototype.includes` (substring containment). -/
def strContains (s sub : String) : Bool :=
  (s.data.tails).any (fun t => List.isPrefixOf sub.data t)

/-- Removes the first occurrence of `pat` from `hay`
(JS `String.prototype.replace` with a string pattern and empty
replacement).  When `pat` does not occur, the list is unchanged. -/
def removeFirstSub (hay pat : List Char) : List Char :=
  match hay with
  | [] => []
  | c :: rest =>
      if List.isPrefixOf pat (c :: rest) then (c :: rest).drop pat.length
      else c :: removeFirstSub rest pat

/-- JS `s.replace(pat, "")` for a plain string pattern. -/
def stringRemoveFirst (s pat : String) : String :=
  String.mk (removeFirstSub s.data pat.data)

/-- Node `path.join` restricted to two segments.  Path normalisation is
irrelevant to the claims (paths are used as opaque keys), so the model
inserts a single separator. -/
def joinPath (a b : String) : String := a ++ "/" ++ b

/-- Node `path.basename`: the part after the last slash. -/
def basenameOf (p : String) : String :=
  String.mk ((p.data.reverse.takeWhile (fun c => c ≠ '/')).reverse)

/-- Node `path.dirname`: the part before the last slash, `.` when there
is no slash. -/
def dirnameOf (p : String) : String :=
  let b := basenameOf p
  if b.data.length = p.data.length then "."
  else String.mk (p.data.take (p.data.length - b.data.length - 1))

/- ===================== config/fileUpload.js ===================== -/

/-- `fileUploadConfig.local.allowedMimeTypes`. -/
def localAllowedMimeTypes : List String :=
  [ "image/jpeg"
  , "image/png"
  , "image/gif"
  , "image/webp"
  , "application/pdf"
  , "application/msword"
  , "application/vnd.openxmlformats-officedocument.wordprocessingml.document"
  , "application/vnd.ms-excel"
  , "application/vnd.openxmlformats-officedocument.spreadsheetml.sheet"
  , "text/plain"
  , "text/csv"
  , "application/zip"
  , "application/x-rar-compressed" ]

/-- `fileUploadConfig.s3.allowedFormats`. -/
def s3AllowedFormats : List String :=
  ["jpg", "jpeg", "png", "gif", "webp", "pdf", "doc", "docx", "zip", "rar"]

/-- `fileUploadConfig.cloudinary.allowedFormats`. -/
def cloudinaryAllowedFormats : List String :=
  ["jpg", "jpeg", "png", "gif", "webp", "pdf", "doc", "docx"]

/-- `fileUploadConfig.validation.minFileSize` (1 KB, not
environment-dependent). -/
def minFileSize : Nat := 1024

/-- `fileUploadConfig.validation.maxFileNameLength`. -/
def maxFileNameLength : Nat := 255

/-- One entry of `fileUploadConfig.uploadTypes.named.fields`. -/
structure NamedFieldConfig where
  maxCount : Nat
  allowedTypes : List String
deriving DecidableEq, Repr

/-- `fileUploadConfig.uploadTypes.named.fields`, in declaration order. -/
def namedFields : List (String × NamedFieldConfig) :=
  [ ("profile", ⟨1, ["image"]⟩)
  , ("resume", ⟨1, ["document"]⟩)
  , ("certificate", ⟨5, ["image", "document"]⟩)
  , ("assignment", ⟨10, ["document", "archive"]⟩) ]

/-- The data of one `fileUploadConfig.uploadTypes` entry that the
orchestrator reads: an optional field name, an optional max count and
the named-field table. -/
structure UploadTypeConfig where
  fieldName : Option String := none
  maxCount : Option Nat := none
  fields : List (String × NamedFieldConfig) := []
deriving DecidableEq, Repr

/-- `fileUploadConfig.uploadTypes` as a partial lookup table. -/
def uploadTypesCfg : String → Option UploadTypeConfig
  | "single" => some { fieldName := some "file", maxCount := some 1 }
  | "multiple" => some { fieldName := some "files", maxCount := some 10 }
  | "named" => some { fields := namedFields }
  | _ => none

/- ===================== utils/fileUpload.js ====================== -/

/-- The character class of the sanitisation regex, literally
`[a-zA-Z0-9.-]`. -/
def allowedFilenameChar (c : Char) : Bool :=
  (('a' ≤ c && c ≤ 'z') || ('A' ≤ c && c ≤ 'Z') ||
   ('0' ≤ c && c ≤ '9') || c == '.' || c == '-')

/-- One step of `originalName.replace(/[^a-zA-Z0-9.-]/g, "_")`. -/
def sanitizeChar (c : Char) : Char :=
  if allowedFilenameChar c then c else '_'

/-- `originalName.replace(/[^a-zA-Z0-9.-]/g, "_")`. -/
def sanitizeName (s : String) : String :=
  String.mk (s.data.map sanitizeChar)

/-- `FileUploadUtils.generateUniqueFilename`.  `Date.now()` and the
8-character cut of `uuidv4()` are passed in as `timestamp` and
`randomToken`.  Note the source sanitises the whole original name,
extension included. -/
def generateUniqueFilename (timestamp : Nat) (randomToken : String)
    (originalName extension : String) : String :=
  toString timestamp ++ "_" ++ randomToken ++ "_" ++ sanitizeName originalName
    ++ "." ++ extension

/-- Follows the wording of the spec for comparison with
`generateUniqueFilename`: the sanitised part is the original filename
without its extension (the stem). -/
def stemOfFilename (name : String) : String :=
  let cs := name.data
  if cs.contains '.' then
    String.mk (cs.take (cs.length - ((cs.reverse.takeWhile (fun c => c ≠ '.')).length + 1)))
  else name

/-- Modelled from the spec: the unique-name formula as the spec states
it, with the sanitised original stem rather than the full name. -/
def specGenerateUniqueName (timestamp : Nat) (randomToken : String)
    (originalName extension : String) : String :=
  toString timestamp ++ "_" ++ randomToken ++ "_"
    ++ sanitizeName (stemOfFilename originalName) ++ "." ++ extension

/-- `FileUploadUtils.getFileExtension`: Node `path.extname` lowercased
with the dot removed.  `path.extname` yields the part after the last
dot unless that dot is the first character. -/
def getFileExtension (filename : String) : String :=
  let cs := filename.data
  let after := (cs.reverse.takeWhile (fun c => c ≠ '.')).reverse
  if after.length + 2 ≤ cs.length then String.mk (after.map Char.toLower)
  else ""

/-- `FileUploadUtils.getFileTypeCategory`. -/
def getFileTypeCategory (mimeType : String) : String :=
  if strStartsWith mimeType "image/" then "image"
  else if strStartsWith mimeType "video/" then "video"
  else if strStartsWith mimeType "audio/" then "audio"
  else if strStartsWith mimeType "application/pdf" then "document"
  else if strContains mimeType "word" || strContains mimeType "excel"
          || strContains mimeType "powerpoint" then "document"
  else if strContains mimeType "zip" || strContains mimeType "rar"
          || strContains mimeType "tar" then "archive"
  else if strStartsWith mimeType "text/" then "text"
  else "other"

/-- `FileUploadUtils.validateFileSize`.  The source appends the
formatted maximum to the too-large message via `formatFileSize`
(floating-point display formatting); the claims only exercise the
too-small branch, so the suffix is omitted here. -/
def validateFileSize (fileSize maxSize : Nat) : Except AppError Bool :=
  if fileSize < minFileSize then
    .error ⟨"File size is too small", 400⟩
  else if fileSize > maxSize then
    .error ⟨"File size exceeds maximum limit", 400⟩
  else .ok true

/-- `FileUploadUtils.validateFileType`. -/
def validateFileType (mimeType : String) (allowedTypes : List String) :
    Except AppError Bool :=
  if allowedTypes.contains mimeType then .ok true
  else .error ⟨"File type " ++ mimeType ++ " is not allowed", 400⟩

/-- The characters rejected by `validateFilename`. -/
def invalidFilenameChars : List Char :=
  ['<', '>', ':', '"', '/', '\\', '|', '?', '*']

/-- `FileUploadUtils.validateFilename`. -/
def validateFilename (filename : String) : Except AppError Bool :=
  if filename.data.length = 0 then .error ⟨"Filename is required", 400⟩
  else if filename.data.length > maxFileNameLength then
    .error ⟨"Filename is too long", 400⟩
  else if filename.data.any (fun c => invalidFilenameChars.contains c) then
    .error ⟨"Filename contains invalid characters", 400⟩
  else .ok true

/-- `FileUploadUtils.validateUploadType`.  `uploadNamedFiles` calls this
with no field-name argument; in JS the lookup
`config.fields[undefined]` is then `undefined`, so the check fires and
the interpolated message reads `undefined`.  `fieldName = none` models
the missing argument. -/
def validateUploadType (uploadType : String) (fieldName : Option String) :
    Except AppError UploadTypeConfig :=
  match uploadTypesCfg uploadType with
  | none => .error ⟨"Invalid upload type: " ++ uploadType, 400⟩
  | some cfg =>
      if uploadType == "named" &&
          (match fieldName with
           | none => true
           | some f => !(cfg.fields.any (fun p => p.1 == f))) then
        .error ⟨"Invalid field name: "
          ++ (match fieldName with | none => "undefined" | some f => f), 400⟩
      else .ok cfg

/-- `FileUploadUtils.optimizeImage`.  The whole `sharp` pipeline
(metadata probe, resize, re-encode) is modelled by `sharpTransform`;
everything in the source body is inside one `try` whose `catch`
returns the original buffer, and when optimisation is disabled the
original buffer is returned before the pipeline runs. -/
def optimizeImage (enableImageOptimization : Bool)
    (sharpTransform : Buffer → Except String Buffer)
    (imageBuffer : Buffer) : Buffer :=
  if !enableImageOptimization then imageBuffer
  else
    match sharpTransform imageBuffer with
    | .ok b => b
    | .error _ => imageBuffer

/-- `FileUploadUtils.generateThumbnail`: `none` when thumbnails are
disabled or the `sharp` pipeline (modelled by `thumbTransform`)
fails. -/
def generateThumbnailFn (generateThumbnails : Bool)
    (thumbTransform : Buffer → Except String Buffer)
    (imageBuffer : Buffer) : Option Buffer :=
  if !generateThumbnails then none
  else
    match thumbTransform imageBuffer with
    | .ok t => some t
    | .error _ => none

/- ============ provider configuration and selection ============== -/

/-- The environment variables read by `config/fileUpload.js` that decide
provider configuration validity and the default provider.  `none`
models an unset variable; `some ""` an empty one (falsy in JS). -/
structure StorageEnvVars where
  CLOUDINARY_CLOUD_NAME : Option String := none
  CLOUDINARY_API_KEY : Option String := none
  CLOUDINARY_API_SECRET : Option String := none
  AWS_ACCESS_KEY_ID : Option String := none
  AWS_SECRET_ACCESS_KEY : Option String := none
  AWS_S3_BUCKET_NAME : Option String := none
  LOCAL_UPLOAD_PATH : Option String := none
  DEFAULT_STORAGE : Option String := none
deriving DecidableEq, Repr

/-- JS truthiness of an optional environment string. -/
def truthy : Option String → Bool
  | none => false
  | some s => s != ""

/-- JS `process.env.X || dflt`. -/
def envOr (v : Option String) (dflt : String) : String :=
  match v with
  | some s => if s != "" then s else dflt
  | none => dflt

/-- `fileUploadConfig.local.uploadPath`. -/
def localUploadPathOf (e : StorageEnvVars) : String :=
  envOr e.LOCAL_UPLOAD_PATH "./uploads"

/-- `fileUploadConfig.general.defaultStorage` before initialisation. -/
def rawDefaultStorage (e : StorageEnvVars) : String :=
  envOr e.DEFAULT_STORAGE "local"

/-- `LocalStorageService.validateConfig`: `!!config.uploadPath`. -/
def validLocal (e : StorageEnvVars) : Bool :=
  localUploadPathOf e != ""

/-- `CloudinaryStorageService.validateConfig`. -/
def validCloudinary (e : StorageEnvVars) : Bool :=
  truthy e.CLOUDINARY_CLOUD_NAME && truthy e.CLOUDINARY_API_KEY
    && truthy e.CLOUDINARY_API_SECRET

/-- `S3StorageService.validateConfig`. -/
def validS3 (e : StorageEnvVars) : Bool :=
  truthy e.AWS_ACCESS_KEY_ID && truthy e.AWS_SECRET_ACCESS_KEY
    && truthy e.AWS_S3_BUCKET_NAME

/-- Identity of a provider selected by the orchestrator. -/
inductive StorageRef where
  | localRef
  | cloudinaryRef
  | s3Ref
deriving DecidableEq, Repr

/-- The registry key of a provider. -/
def refName : StorageRef → String
  | .localRef => "local"
  | .cloudinaryRef => "cloudinary"
  | .s3Ref => "s3"

/-- `this.storageServices[t]?.validateConfig()`: `none` models an
unknown registry key (`undefined` in JS). -/
def serviceValidate (e : StorageEnvVars) (t : String) : Option Bool :=
  if t == "local" then some (validLocal e)
  else if t == "cloudinary" then some (validCloudinary e)
  else if t == "s3" then some (validS3 e)
  else none

/-- `FileUploadService.initializeStorageServices`: the default storage
after the one-time startup substitution.  An unknown or unconfigured
default falls back to `local`. -/
def initializedDefaultStorage (e : StorageEnvVars) : String :=
  match serviceValidate e (rawDefaultStorage e) with
  | some true => rawDefaultStorage e
  | _ => "local"

/-- `FileUploadService.getStorageService`.  A `none` or empty requested
type falls back to the (already initialised) default; an unknown key
is a 400 and an unconfigured provider a 500, never a substitution. -/
def getStorageService (e : StorageEnvVars) (storageType : Option String) :
    Except AppError StorageRef :=
  let t := match storageType with
    | some s => if s != "" then s else initializedDefaultStorage e
    | none => initializedDefaultStorage e
  if t == "local" then
    if validLocal e then .ok .localRef
    else .error ⟨"Storage service " ++ t ++ " is not properly configured", 500⟩
  else if t == "cloudinary" then
    if validCloudinary e then .ok .cloudinaryRef
    else .error ⟨"Storage service " ++ t ++ " is not properly configured", 500⟩
  else if t == "s3" then
    if validS3 e then .ok .s3Ref
    else .error ⟨"Storage service " ++ t ++ " is not properly configured", 500⟩
  else .error ⟨"Storage service " ++ t ++ " not found", 400⟩

/- ================ LocalStorageService.js ======================== -/

/-- The options destructured by the provider upload methods. -/
structure UploadOptions where
  uploadType : String := "general"
  optimizeImage : Bool := true
  generateThumbnail : Bool := true
deriving DecidableEq, Repr

/-- `fileUploadConfig.general` image knobs used by the providers.  The
numeric quality and dimension knobs live inside the external `sharp`
transform and are absorbed into the transform parameters. -/
structure GeneralConfig where
  enableImageOptimization : Bool := false
  generateThumbnails : Bool := false
deriving DecidableEq, Repr

/-- `fileUploadConfig.local` fields used by the local provider. -/
structure LocalConfig where
  uploadPath : String := "./uploads"
  maxFileSize : Nat := 10485760
deriving DecidableEq, Repr

/-- One observable filesystem side effect of the local provider. -/
inductive ExternalCall where
  | ensureDir (path : String)
  | writeFile (path : String) (contents : Buffer)
deriving DecidableEq, Repr

/-- External collaborators of `LocalStorageService.uploadFile`: the
content digest, the two `sharp` pipelines, filesystem outcomes, the
wall clock and the random token. -/
structure LocalEnv where
  hashFn : Buffer → String
  sharpTransform : Buffer → Except String Buffer
  thumbTransform : Buffer → Except String Buffer
  ensureDirResult : String → Except String Unit
  writeFileResult : String → Buffer → Except String Unit
  timestamp : Nat
  randomToken : String
  nowIso : String

/-- The result object returned by `LocalStorageService.uploadFile`. -/
structure LocalUploadResult where
  success : Bool
  filename : String
  originalName : String
  mimeType : String
  size : Nat
  path : String
  url : String
  thumbnailUrl : Option String
  hash : String
  uploadType : String
  storageType : String
  uploadedAt : String
deriving DecidableEq, Repr

/-- The processed-buffer selection of `LocalStorageService.uploadFile`
(and, identically, `S3StorageService.uploadFile`): images are run
through `optimizeImage` when requested, everything else is stored
verbatim. -/
def processedBufferFor (gen : GeneralConfig) (env : LocalEnv)
    (mimeType : String) (opts : UploadOptions) (fileBuffer : Buffer) : Buffer :=
  if strStartsWith mimeType "image/" && opts.optimizeImage then
    optimizeImage gen.enableImageOptimization env.sharpTransform fileBuffer
  else fileBuffer

/-- Body of the `try` block of `LocalStorageService.uploadFile`.
Returns the result (or the first error raised) together with the
filesystem calls performed before returning, in order. -/
def localUploadFileInner (cfg : LocalConfig) (gen : GeneralConfig)
    (env : LocalEnv) (fileBuffer : Buffer) (filename mimeType : String)
    (opts : UploadOptions) :
    Except AppError LocalUploadResult × List ExternalCall :=
  match validateFileSize fileBuffer.length cfg.maxFileSize with
  | .error e => (.error e, [])
  | .ok _ =>
  match validateFileType mimeType localAllowedMimeTypes with
  | .error e => (.error e, [])
  | .ok _ =>
  match validateFilename filename with
  | .error e => (.error e, [])
  | .ok _ =>
  let extension := getFileExtension filename
  let uniqueFilename :=
    generateUniqueFilename env.timestamp env.randomToken filename extension
  let uploadPath := joinPath cfg.uploadPath opts.uploadType
  match env.ensureDirResult uploadPath with
  | .error _ =>
      (.error ⟨"Failed to create upload directory", 500⟩,
       [.ensureDir uploadPath])
  | .ok _ =>
  let filePath := joinPath uploadPath uniqueFilename
  let processedBuffer := processedBufferFor gen env mimeType opts fileBuffer
  match env.writeFileResult filePath processedBuffer with
  | .error msg =>
      (.error ⟨msg, 500⟩,
       [.ensureDir uploadPath, .writeFile filePath processedBuffer])
  | .ok _ =>
  let thumbBuffer :=
    if strStartsWith mimeType "image/" && opts.generateThumbnail then
      generateThumbnailFn gen.generateThumbnails env.thumbTransform fileBuffer
    else none
  match thumbBuffer with
  | some tb =>
      let thumbnailPath := joinPath uploadPath ("thumb_" ++ uniqueFilename)
      (match env.writeFileResult thumbnailPath tb with
       | .error msg =>
           (.error ⟨msg, 500⟩,
            [.ensureDir uploadPath, .writeFile filePath processedBuffer,
             .writeFile thumbnailPath tb])
       | .ok _ =>
           (.ok
             { success := true
             , filename := uniqueFilename
             , originalName := filename
             , mimeType := mimeType
             , size := fileBuffer.length
             , path := filePath
             , url := "/uploads/" ++ opts.uploadType ++ "/" ++ uniqueFilename
             , thumbnailUrl :=
                 some ("/uploads/" ++ opts.uploadType ++ "/thumb_" ++ uniqueFilename)
             , hash := env.hashFn fileBuffer
             , uploadType := opts.uploadType
             , storageType := "local"
             , uploadedAt := env.nowIso }
           , [.ensureDir uploadPath, .writeFile filePath processedBuffer,
              .writeFile thumbnailPath tb]))
  | none =>
      (.ok
        { success := true
        , filename := uniqueFilename
        , originalName := filename
        , mimeType := mimeType
        , size := fileBuffer.length
        , path := filePath
        , url := "/uploads/" ++ opts.uploadType ++ "/" ++ uniqueFilename
        , thumbnailUrl := none
        , hash := env.hashFn fileBuffer
        , uploadType := opts.uploadType
        , storageType := "local"
        , uploadedAt := env.nowIso }
      , [.ensureDir uploadPath, .writeFile filePath processedBuffer])

/-- `LocalStorageService.uploadFile`: the `catch` converts every inner
failure into the generic upload error. -/
def localUploadFile (cfg : LocalConfig) (gen : GeneralConfig)
    (env : LocalEnv) (fileBuffer : Buffer) (filename mimeType : String)
    (opts : UploadOptions) :
    Except AppError LocalUploadResult × List ExternalCall :=
  match localUploadFileInner cfg gen env fileBuffer filename mimeType opts with
  | (.ok r, calls) => (.ok r, calls)
  | (.error _, calls) => (.error ⟨"Failed to upload file", 500⟩, calls)

/-- Filesystem contents for the delete model: the set of existing
paths. -/
abbrev FileSystem := List String

/-- `fs.pathExists`. -/
def pathExistsFS (fs : FileSystem) (p : String) : Bool := fs.contains p

/-- `fs.remove` (fs-extra removal is idempotent). -/
def removeFS (fs : FileSystem) (p : String) : FileSystem :=
  fs.filter (fun q => q != p)

/-- Identifier resolution of `LocalStorageService.deleteFile`: a
`/uploads/`-URL is mapped back to a path under the base path, anything
else is taken as a path verbatim. -/
def localResolvePath (cfg : LocalConfig) (fileId : String) : String :=
  if strStartsWith fileId "/uploads/" then
    joinPath cfg.uploadPath (stringRemoveFirst fileId "/uploads/")
  else fileId

/-- Body of the `try` block of `LocalStorageService.deleteFile`:
missing primary artifact raises 404; otherwise the file and the
sibling thumbnail (when present) are removed. -/
def localDeleteFileInner (cfg : LocalConfig) (fs : FileSystem)
    (fileId : String) : Except AppError Bool × FileSystem :=
  let filePath := localResolvePath cfg fileId
  if !(pathExistsFS fs filePath) then
    (.error ⟨"File not found", 404⟩, fs)
  else
    let fs1 := removeFS fs filePath
    let thumbnailPath :=
      joinPath (dirnameOf filePath) ("thumb_" ++ basenameOf filePath)
    if pathExistsFS fs1 thumbnailPath then (.ok true, removeFS fs1 thumbnailPath)
    else (.ok true, fs1)

/-- `LocalStorageService.deleteFile`: the `catch` wraps every inner
failure, including the 404, into the generic delete error. -/
def localDeleteFile (cfg : LocalConfig) (fs : FileSystem) (fileId : String) :
    Except AppError Bool × FileSystem :=
  match localDeleteFileInner cfg fs fileId with
  | (.ok b, fs1) => (.ok b, fs1)
  | (.error _, fs1) => (.error ⟨"Failed to delete file", 500⟩, fs1)

/- ============== batch and named upload aggregation ============== -/

/-- A multer file object: buffer, original name and declared MIME. -/
structure NamedFile where
  buffer : Buffer
  originalname : String
  mimetype : String
deriving DecidableEq, Repr

/-- One entry of a batch or named-field aggregate: either a provider
result or the `{success:false, originalName, error}` failure record. -/
inductive SubResult (α : Type) where
  | ok (r : α)
  | failed (originalName errorMsg : String)
deriving DecidableEq, Repr

/-- `uploadMultipleFiles` as implemented identically by all three
providers: files are processed in order, each inside its own
`try/catch`, and a failure becomes a `success:false` record without
stopping the loop.  `uploader` is the dynamic `this.uploadFile`. -/
def uploadMultipleFiles {α : Type}
    (uploader : NamedFile → Except AppError α) :
    List NamedFile → List (SubResult α)
  | [] => []
  | f :: rest =>
      (match uploader f with
       | .ok r => SubResult.ok r
       | .error e => SubResult.failed f.originalname e.message)
        :: uploadMultipleFiles uploader rest

/-- `LocalStorageService.uploadMultipleFiles` instantiated with the
local `uploadFile`. -/
def localUploadMultipleFiles (cfg : LocalConfig) (gen : GeneralConfig)
    (env : LocalEnv) (opts : UploadOptions) (files : List NamedFile) :
    List (SubResult LocalUploadResult) :=
  uploadMultipleFiles
    (fun f => (localUploadFile cfg gen env f.buffer f.originalname f.mimetype opts).1)
    files

/-- One file of one named field in `FileUploadService.uploadNamedFiles`:
the type-category gate turns a disallowed category into a failure
record, and an upload error is caught into a failure record. -/
def processNamedFile {α : Type}
    (uploader : NamedFile → String → Except AppError α)
    (fieldName : String) (fcfg : NamedFieldConfig) (f : NamedFile) :
    SubResult α :=
  if fcfg.allowedTypes.length > 0 &&
      !(fcfg.allowedTypes.contains (getFileTypeCategory f.mimetype)) then
    .failed f.originalname
      ("File type " ++ getFileTypeCategory f.mimetype
        ++ " not allowed for field " ++ fieldName)
  else
    match uploader f fieldName with
    | .ok r => .ok r
    | .error e => .failed f.originalname e.message

/-- `files[fieldName]` on the multer files object. -/
def lookupField (files : List (String × List NamedFile)) (name : String) :
    Option (List NamedFile) :=
  (files.find? (fun p => p.1 == name)).map (fun p => p.2)

/-- The field loop of `FileUploadService.uploadNamedFiles`: contract
fields are visited in declaration order; a field whose submitted count
exceeds `maxCount` raises, aborting the whole call. -/
def uploadNamedFilesLoop {α : Type}
    (uploader : NamedFile → String → Except AppError α)
    (files : List (String × List NamedFile)) :
    List (String × NamedFieldConfig) →
    Except AppError (List (String × List (SubResult α)))
  | [] => .ok []
  | (fieldName, fcfg) :: rest =>
      match lookupField files fieldName with
      | none => uploadNamedFilesLoop uploader files rest
      | some fieldFiles =>
          if fieldFiles.length > fcfg.maxCount then
            .error ⟨"Maximum " ++ toString fcfg.maxCount
              ++ " files allowed for field " ++ fieldName, 400⟩
          else
            match uploadNamedFilesLoop uploader files rest with
            | .error e => .error e
            | .ok restResults =>
                .ok ((fieldName,
                      fieldFiles.map (processNamedFile uploader fieldName fcfg))
                     :: restResults)

/-- `FileUploadService.uploadNamedFiles`.  The upload-type validation is
invoked without a field name (see `validateUploadType`), and the outer
`catch` rethrows unchanged. -/
def uploadNamedFiles {α : Type}
    (uploader : NamedFile → String → Except AppError α)
    (files : List (String × List NamedFile)) :
    Except AppError (List (String × List (SubResult α))) :=
  match validateUploadType "named" none with
  | .error e => .error e
  | .ok cfg => uploadNamedFilesLoop uploader files cfg.fields

/- ================== S3StorageService.js ========================= -/

/-- `fileUploadConfig.s3` fields used by the S3 provider. -/
structure S3Config where
  folder : String := "maitexa"
  bucketName : String := ""
  region : String := "us-east-1"
  maxFileSize : Nat := 10485760
deriving DecidableEq, Repr

/-- The fields of the AWS SDK upload response that the provider
reads. -/
structure S3UploadResponse where
  location : String
  etag : String
  versionId : String
  bucket : String
  key : String
deriving DecidableEq, Repr

/-- External collaborators of `S3StorageService.uploadFile`.
`s3Upload` takes key, body and content type; ACL and metadata are
pass-through strings that do not influence any returned field and are
elided. -/
structure S3Env where
  hashFn : Buffer → String
  sharpTransform : Buffer → Except String Buffer
  thumbTransform : Buffer → Except String Buffer
  s3Upload : String → Buffer → String → Except String S3UploadResponse
  timestamp : Nat
  randomToken : String
  nowIso : String

/-- The result object returned by `S3StorageService.uploadFile`. -/
structure S3UploadResult where
  success : Bool
  filename : String
  originalName : String
  mimeType : String
  size : Nat
  url : String
  thumbnailUrl : Option String
  s3Key : String
  thumbnailS3Key : Option String
  etag : String
  versionId : String
  hash : String
  uploadType : String
  storageType : String
  uploadedAt : String
deriving DecidableEq, Repr

/-- Body of the `try` block of `S3StorageService.uploadFile`. -/
def s3UploadFileInner (cfg : S3Config) (gen : GeneralConfig) (env : S3Env)
    (fileBuffer : Buffer) (filename mimeType : String) (opts : UploadOptions) :
    Except AppError S3UploadResult :=
  match validateFileSize fileBuffer.length cfg.maxFileSize with
  | .error e => .error e
  | .ok _ =>
  match validateFilename filename with
  | .error e => .error e
  | .ok _ =>
  let extension := getFileExtension filename
  if !(s3AllowedFormats.contains extension) then
    .error ⟨"File type " ++ extension ++ " is not allowed for S3", 400⟩
  else
  let uniqueFilename :=
    generateUniqueFilename env.timestamp env.randomToken filename extension
  let s3Key := cfg.folder ++ "/" ++ opts.uploadType ++ "/" ++ uniqueFilename
  let processedBuffer :=
    if strStartsWith mimeType "image/" && opts.optimizeImage then
      optimizeImage gen.enableImageOptimization env.sharpTransform fileBuffer
    else fileBuffer
  match env.s3Upload s3Key processedBuffer mimeType with
  | .error msg => .error ⟨msg, 500⟩
  | .ok resp =>
  let thumbKeyE : Except AppError (Option String) :=
    if strStartsWith mimeType "image/" && opts.generateThumbnail then
      match generateThumbnailFn gen.generateThumbnails env.thumbTransform fileBuffer with
      | some tb =>
          let thumbnailKey :=
            cfg.folder ++ "/" ++ opts.uploadType ++ "/thumb_" ++ uniqueFilename
          (match env.s3Upload thumbnailKey tb "image/jpeg" with
           | .ok _ => .ok (some thumbnailKey)
           | .error msg => .error ⟨msg, 500⟩)
      | none => .ok none
    else .ok none
  match thumbKeyE with
  | .error e => .error e
  | .ok thumbnailKey =>
      .ok
        { success := true
        , filename := uniqueFilename
        , originalName := filename
        , mimeType := mimeType
        , size := fileBuffer.length
        , url := resp.location
        , thumbnailUrl := thumbnailKey.map (fun k =>
            "https://" ++ cfg.bucketName ++ ".s3." ++ cfg.region
              ++ ".amazonaws.com/" ++ k)
        , s3Key := s3Key
        , thumbnailS3Key := thumbnailKey
        , etag := resp.etag
        , versionId := resp.versionId
        , hash := env.hashFn fileBuffer
        , uploadType := opts.uploadType
        , storageType := "s3"
        , uploadedAt := env.nowIso }

/-- `S3StorageService.uploadFile`: the `catch` converts every inner
failure into the generic S3 upload error. -/
def s3UploadFile (cfg : S3Config) (gen : GeneralConfig) (env : S3Env)
    (fileBuffer : Buffer) (filename mimeType : String) (opts : UploadOptions) :
    Except AppError S3UploadResult :=
  match s3UploadFileInner cfg gen env fileBuffer filename mimeType opts with
  | .ok r => .ok r
  | .error _ => .error ⟨"Failed to upload file to S3", 500⟩

/- =============== CloudinaryStorageService.js ==================== -/

/-- `fileUploadConfig.cloudinary` fields used by the provider. -/
structure CloudinaryConfig where
  folder : String := "maitexa"
  maxFileSize : Nat := 10485760
deriving DecidableEq, Repr

/-- The fields of the Cloudinary upload response that the provider
reads. -/
structure CloudinaryResponse where
  secureUrl : String
  publicId : String
  assetId : String
  version : Nat
  format : String
  width : Nat
  height : Nat
  bytes : Nat
  etag : String
deriving DecidableEq, Repr

/-- External collaborators of `CloudinaryStorageService.uploadFile`.
Both SDK calls receive the original file content (re-encoded as a data
URI in the source), the target folder and the requested public id; the
thumbnail call additionally carries a fixed 300x300 transformation. -/
structure CloudinaryEnv where
  hashFn : Buffer → String
  cloudUpload : Buffer → String → String → Except String CloudinaryResponse
  cloudThumbUpload : Buffer → String → String → Except String CloudinaryResponse
  timestamp : Nat
  randomToken : String
  nowIso : String

/-- The result object returned by
`CloudinaryStorageService.uploadFile` (the `cloudinaryData` sub-object
is flattened away; none of its fields appear in any claim). -/
structure CloudinaryUploadResult where
  success : Bool
  filename : String
  originalName : String
  mimeType : String
  size : Nat
  url : String
  thumbnailUrl : Option String
  publicId : String
  assetId : String
  version : Nat
  hash : String
  uploadType : String
  storageType : String
  uploadedAt : String
deriving DecidableEq, Repr

/-- Body of the `try` block of `CloudinaryStorageService.uploadFile`. -/
def cloudinaryUploadFileInner (cfg : CloudinaryConfig) (env : CloudinaryEnv)
    (fileBuffer : Buffer) (filename mimeType : String) (opts : UploadOptions) :
    Except AppError CloudinaryUploadResult :=
  match validateFileSize fileBuffer.length cfg.maxFileSize with
  | .error e => .error e
  | .ok _ =>
  match validateFilename filename with
  | .error e => .error e
  | .ok _ =>
  let extension := getFileExtension filename
  if !(cloudinaryAllowedFormats.contains extension) then
    .error ⟨"File type " ++ extension ++ " is not allowed for Cloudinary", 400⟩
  else
  let uniqueFilename :=
    generateUniqueFilename env.timestamp env.randomToken filename extension
  let folder := cfg.folder ++ "/" ++ opts.uploadType
  let publicId := stringRemoveFirst uniqueFilename ("." ++ extension)
  match env.cloudUpload fileBuffer folder publicId with
  | .error msg => .error ⟨msg, 500⟩
  | .ok resp =>
  let thumbUrlE : Except AppError (Option String) :=
    if strStartsWith mimeType "image/" && opts.generateThumbnail then
      match env.cloudThumbUpload fileBuffer folder publicId with
      | .ok tresp => .ok (some tresp.secureUrl)
      | .error msg => .error ⟨msg, 500⟩
    else .ok none
  match thumbUrlE with
  | .error e => .error e
  | .ok thumbnailUrl =>
      .ok
        { success := true
        , filename := uniqueFilename
        , originalName := filename
        , mimeType := mimeType
        , size := fileBuffer.length
        , url := resp.secureUrl
        , thumbnailUrl := thumbnailUrl
        , publicId := resp.publicId
        , assetId := resp.assetId
        , version := resp.version
        , hash := env.hashFn fileBuffer
        , uploadType := opts.uploadType
        , storageType := "cloudinary"
        , uploadedAt := env.nowIso }

/-- `CloudinaryStorageService.uploadFile`: the `catch` converts every
inner failure into the generic Cloudinary upload error. -/
def cloudinaryUploadFile (cfg : CloudinaryConfig) (env : CloudinaryEnv)
    (fileBuffer : Buffer) (filename mimeType : String) (opts : UploadOptions) :
    Except AppError CloudinaryUploadResult :=
  match cloudinaryUploadFileInner cfg env fileBuffer filename mimeType opts with
  | .ok r => .ok r
  | .error _ => .error ⟨"Failed to upload file to Cloudinary", 500⟩

/-- The regex `\.[^/.]+$`: strips a trailing dot-extension when one
exists (at least one character after the final dot, none of them a
slash or another dot). -/
def stripLastExt (s : String) : String :=
  let r := s.data.reverse
  let seg := r.takeWhile (fun c => c ≠ '.' ∧ c ≠ '/')
  if 1 ≤ seg.length ∧ r.get? seg.length = some '.' then
    String.mk ((r.drop (seg.length + 1)).reverse)
  else s

/-- Identifier resolution of `CloudinaryStorageService.deleteFile`: a
Cloudinary URL is split on slashes, the segment two places after
`upload` is taken (when present and nonempty) and its extension
stripped; anything else is used verbatim as a public id. -/
def cloudinaryResolvePublicId (fileId : String) : String :=
  if strContains fileId "cloudinary.com" then
    let urlParts := fileId.splitOn "/"
    let uploadIndex := urlParts.findIdx (fun p => p == "upload")
    if uploadIndex < urlParts.length then
      match urlParts.get? (uploadIndex + 2) with
      | some part => if part != "" then stripLastExt part else fileId
      | none => fileId
    else fileId
  else fileId

/-- The fields of the Cloudinary destroy response the provider
reads. -/
structure DestroyResponse where
  result : String
deriving DecidableEq, Repr

/-- `CloudinaryStorageService.deleteFile`: both the `ok` and the
`not found` backend outcomes return `true`; any other outcome (or a
failing SDK call) is wrapped by the `catch` into the generic delete
error. -/
def cloudinaryDeleteFile (destroy : String → Except String DestroyResponse)
    (fileId : String) : Except AppError Bool :=
  let publicId := cloudinaryResolvePublicId fileId
  match destroy publicId with
  | .error _ => .error ⟨"Failed to delete file from Cloudinary", 500⟩
  | .ok resp =>
      if resp.result == "ok" || resp.result == "not found" then .ok true
      else .error ⟨"Failed to delete file from Cloudinary", 500⟩

/- ========= FileUploadService.uploadSingleFile (orchestrator) ==== -/

/-- A result of whichever provider the orchestrator dispatched to. -/
inductive AnyUploadResult where
  | localR (r : LocalUploadResult)
  | s3R (r : S3UploadResult)
  | cloudinaryR (r : CloudinaryUploadResult)
deriving DecidableEq, Repr

/-- `FileUploadService.uploadSingleFile`: validates the upload type,
selects the provider (an explicit empty or missing `storageType` falls
back to the initialised default, exactly as `storageType ||
this.defaultStorage` composes with `getStorageService`), dispatches,
and rethrows provider errors unchanged.  Only the local provider has
observable filesystem calls, returned as the second component. -/
def uploadSingleFile (e : StorageEnvVars) (cfgL : LocalConfig)
    (cfgS : S3Config) (cfgC : CloudinaryConfig) (gen : GeneralConfig)
    (lenv : LocalEnv) (senv : S3Env) (cenv : CloudinaryEnv)
    (file : NamedFile) (storageType : Option String) (opts : UploadOptions) :
    Except AppError AnyUploadResult × List ExternalCall :=
  match validateUploadType "single" (some "file") with
  | .error err => (.error err, [])
  | .ok _ =>
  match getStorageService e storageType with
  | .error err => (.error err, [])
  | .ok .localRef =>
      (match localUploadFile cfgL gen lenv file.buffer file.originalname
          file.mimetype opts with
       | (.ok r, calls) => (.ok (.localR r), calls)
       | (.error err, calls) => (.error err, calls))
  | .ok .s3Ref =>
      (match s3UploadFile cfgS gen senv file.buffer file.originalname
          file.mimetype opts with
       | .ok r => (.ok (.s3R r), [])
       | .error err => (.error err, []))
  | .ok .cloudinaryRef =>
      (match cloudinaryUploadFile cfgC cenv file.buffer file.originalname
          file.mimetype opts with
       | .ok r => (.ok (.cloudinaryR r), [])
       | .error err => (.error err, []))

/- ===================== concrete fixtures ======================== -/

/-- A deterministic stand-in for the external MD5 digest: any concrete
function of the bytes works for witnesses. -/
def fixHash (b : Buffer) : String := "h" ++ toString b.length

/-- Local provider environment in which every external call
succeeds. -/
def fixLocalEnv : LocalEnv :=
  { hashFn := fixHash
  , sharpTransform := fun b => Except.ok b
  , thumbTransform := fun b => Except.ok b
  , ensureDirResult := fun _ => Except.ok ()
  , writeFileResult := fun _ _ => Except.ok ()
  , timestamp := 111
  , randomToken := "dead"
  , nowIso := "2026" }

/-- S3 provider environment in which every external call succeeds. -/
def fixS3Env : S3Env :=
  { hashFn := fixHash
  , sharpTransform := fun b => Except.ok b
  , thumbTransform := fun b => Except.ok b
  , s3Upload := fun k _ _ =>
      Except.ok ⟨"https://bucket.s3/" ++ k, "etag1", "v1", "bname", k⟩
  , timestamp := 111
  , randomToken := "dead"
  , nowIso := "2026" }

/-- Cloudinary provider environment in which every external call
succeeds. -/
def fixCloudEnv : CloudinaryEnv :=
  { hashFn := fixHash
  , cloudUpload := fun _ _ pid =>
      Except.ok ⟨"https://res.cloudinary.com/x/" ++ pid, pid, "asset1", 7,
        "pdf", 0, 0, 0, "etag2"⟩
  , cloudThumbUpload := fun _ _ pid =>
      Except.ok ⟨"https://res.cloudinary.com/x/t_" ++ pid, pid, "asset1", 7,
        "pdf", 0, 0, 0, "etag2"⟩
  , timestamp := 111
  , randomToken := "dead"
  , nowIso := "2026" }

/-- A 1 KiB buffer (the minimum accepted size). -/
def fixBuf1024 : Buffer := List.replicate 1024 7

/-- A 50-byte buffer (the too-small scenario from the spec). -/
def fixBuf50 : Buffer := List.replicate 50 7

/-- A 100-byte buffer (a second too-small input). -/
def fixBuf100 : Buffer := List.replicate 100 7

/-- A named-files object with two files for the one-file `profile`
field and one for `resume`. -/
def c1Files : List (String × List NamedFile) :=
  [ ("profile", [⟨fixBuf1024, "p1.png", "image/png"⟩,
                 ⟨fixBuf1024, "p2.png", "image/png"⟩])
  , ("resume", [⟨fixBuf1024, "r.pdf", "application/pdf"⟩]) ]

/-- A provider stub that accepts every file. -/
def c1Uploader : NamedFile → String → Except AppError Nat :=
  fun _ _ => Except.ok 0

/- ======================= claim theorems ========================= -/

/-- C1 (counterexample).  At a call whose `profile` field carries two
files against the contract maximum of one, `uploadNamedFiles` returns
a thrown error (and hence no per-field result mapping at all), not a
failed sub-result for `profile` alongside results for `resume`. -/
theorem uploadNamedFiles_overcount_counterexample :
    lookupField c1Files "profile"
      = some [⟨fixBuf1024, "p1.png", "image/png"⟩,
              ⟨fixBuf1024, "p2.png", "image/png"⟩] ∧
    (namedFields.find? (fun p => p.1 == "profile")).map (fun p => p.2.maxCount)
      = some 1 ∧
    uploadNamedFiles c1Uploader c1Files
      = .error ⟨"Invalid field name: undefined", 400⟩ :=
  ⟨rfl, rfl, rfl⟩

/-- C1 (amended).  Every call to `uploadNamedFiles` fails with the
invalid-field-name error: the upload-type validation is invoked
without a field name, so no field group is ever processed and no
sub-results (failed or successful) are ever produced; a field count
exceeding its contract maximum would likewise raise rather than yield
failed sub-results. -/
theorem uploadNamedFiles_always_invalid_field :
    ∀ (α : Type) (uploader : NamedFile → String → Except AppError α)
      (files : List (String × List NamedFile)),
      uploadNamedFiles uploader files
        = .error ⟨"Invalid field name: undefined", 400⟩ := by
  intro α uploader files
  rfl

/-- C4.  The provider batch upload returns exactly one entry per input
file, in submission order: the i-th entry is determined by the i-th
file alone, and is the failure record carrying that file's original
name and error message exactly when that file's upload fails. -/
theorem uploadMultipleFiles_per_file_results :
    ∀ (α : Type) (uploader : NamedFile → Except AppError α)
      (files : List NamedFile),
      (uploadMultipleFiles uploader files).length = files.length ∧
      ∀ i, (uploadMultipleFiles uploader files).get? i
        = (files.get? i).map (fun f =>
            match uploader f with
            | .ok r => SubResult.ok r
            | .error e => SubResult.failed f.originalname e.message) := by
  intro α uploader files
  constructor
  · induction files with
    | nil => rfl
    | cons f t ih => simp [uploadMultipleFiles, ih]
  · intro i
    induction files generalizing i with
    | nil => cases i <;> rfl
    | cons f t ih =>
        cases i with
        | zero => rfl
        | succ n => simpa [uploadMultipleFiles] using ih n

/-- C6 (counterexample).  The OOXML spreadsheet MIME type is in the
local provider's allowed set, yet `getFileTypeCategory` classifies it
as `other`, not `document`: it starts with none of the media prefixes
and contains none of the substrings `word`, `excel`, `powerpoint`. -/
theorem getFileTypeCategory_spreadsheet_counterexample :
    getFileTypeCategory
        "application/vnd.openxmlformats-officedocument.spreadsheetml.sheet"
      = "other" ∧
    localAllowedMimeTypes.contains
        "application/vnd.openxmlformats-officedocument.spreadsheetml.sheet"
      = true ∧
    ("other" : String) ≠ "document" :=
  ⟨rfl, rfl, by decide⟩

/-- C6 (amended).  `getFileTypeCategory` always lands in the fixed
seven-category codomain via the if-chain precedence, and every
office-document MIME type in the local allowed set is classified
`document` except the OOXML spreadsheet type, which falls through to
`other` (the substring gate checks only `word`, `excel` and
`powerpoint`). -/
theorem getFileTypeCategory_amended :
    (∀ mime, getFileTypeCategory mime
        ∈ (["image", "video", "audio", "document", "archive", "text", "other"]
            : List String)) ∧
    getFileTypeCategory "application/pdf" = "document" ∧
    getFileTypeCategory "application/msword" = "document" ∧
    getFileTypeCategory
        "application/vnd.openxmlformats-officedocument.wordprocessingml.document"
      = "document" ∧
    getFileTypeCategory "application/vnd.ms-excel" = "document" ∧
    getFileTypeCategory
        "application/vnd.openxmlformats-officedocument.spreadsheetml.sheet"
      = "other" := by
  refine ⟨?_, rfl, rfl, rfl, rfl, rfl⟩
  intro mime
  unfold getFileTypeCategory
  split_ifs <;> simp

/-- C7 (counterexample).  On `photo.png` with extension `png` the code
produces `..._photo.png.png` (the whole original name is sanitised and
kept), while the formula of the spec, with the sanitised stem, gives
`..._photo.png`; the two disagree. -/
theorem generateUniqueFilename_not_stem_counterexample :
    generateUniqueFilename 1712 "abcd1234" "photo.png" "png"
      = "1712_abcd1234_photo.png.png" ∧
    specGenerateUniqueName 1712 "abcd1234" "photo.png" "png"
      = "1712_abcd1234_photo.png" ∧
    ("1712_abcd1234_photo.png.png" : String) ≠ "1712_abcd1234_photo.png" :=
  ⟨rfl, rfl, by decide⟩

/-- Auxiliary: the sanitisation character class, written as the regex
ranges, in propositional form. -/
theorem allowedFilenameChar_iff (c : Char) :
    allowedFilenameChar c = true ↔
      (('a' ≤ c ∧ c ≤ 'z') ∨ ('A' ≤ c ∧ c ≤ 'Z') ∨ ('0' ≤ c ∧ c ≤ '9')
        ∨ c = '.' ∨ c = '-') := by
  simp [allowedFilenameChar, and_assoc, or_assoc]

/-- C7 (amended).  `generateUniqueFilename` returns exactly
`{timestamp}_{token}_{sanitised FULL original filename}.{extension}`:
the sanitised part is the whole original name, extension included, not
the stem; sanitisation maps each character outside `[A-Za-z0-9.-]` to
an underscore and preserves the character count. -/
theorem generateUniqueFilename_full_name_formula :
    ∀ (ts : Nat) (tok name ext : String),
      generateUniqueFilename ts tok name ext
        = toString ts ++ "_" ++ tok ++ "_"
          ++ String.mk (name.data.map (fun c =>
               if ('a' ≤ c ∧ c ≤ 'z') ∨ ('A' ≤ c ∧ c ≤ 'Z')
                  ∨ ('0' ≤ c ∧ c ≤ '9') ∨ c = '.' ∨ c = '-'
               then c else '_'))
          ++ "." ++ ext ∧
      (sanitizeName name).data.length = name.data.length := by
  intro ts tok name ext
  have hchar : ∀ c : Char, sanitizeChar c
      = if ('a' ≤ c ∧ c ≤ 'z') ∨ ('A' ≤ c ∧ c ≤ 'Z')
           ∨ ('0' ≤ c ∧ c ≤ '9') ∨ c = '.' ∨ c = '-'
        then c else '_' := by
    intro c
    by_cases h : ('a' ≤ c ∧ c ≤ 'z') ∨ ('A' ≤ c ∧ c ≤ 'Z')
        ∨ ('0' ≤ c ∧ c ≤ '9') ∨ c = '.' ∨ c = '-'
    · rw [if_pos h]
      unfold sanitizeChar
      rw [if_pos ((allowedFilenameChar_iff c).mpr h)]
    · rw [if_neg h]
      unfold sanitizeChar
      rw [if_neg (fun hb => h ((allowedFilenameChar_iff c).mp hb))]
  constructor
  · unfold generateUniqueFilename sanitizeName
    have : name.data.map sanitizeChar
        = name.data.map (fun c =>
            if ('a' ≤ c ∧ c ≤ 'z') ∨ ('A' ≤ c ∧ c ≤ 'Z')
               ∨ ('0' ≤ c ∧ c ≤ '9') ∨ c = '.' ∨ c = '-'
            then c else '_') :=
      List.map_congr_left (fun c _ => hchar c)
    rw [this]
  · unfold sanitizeName
    simp

/-- C2 (counterexample).  Uploading a 50-byte file through the
orchestrator to the local provider fails, performs no directory
creation and no byte write, but the surfaced error is the provider's
generic upload failure (500), not the size-validation error: the size
check runs inside the provider's `uploadFile` and its error is
swallowed by that method's catch-all. -/
theorem uploadSingleFile_small_file_counterexample :
    uploadSingleFile {} {} {} {} {} fixLocalEnv fixS3Env fixCloudEnv
        ⟨fixBuf50, "a.pdf", "application/pdf"⟩ none {}
      = (.error ⟨"Failed to upload file", 500⟩, []) ∧
    (⟨"Failed to upload file", 500⟩ : AppError)
      ≠ ⟨"File size is too small", 400⟩ :=
  ⟨rfl, by decide⟩

/-- C2 (amended).  For every buffer below the 1024-byte minimum
dispatched to the local provider, the orchestrator upload fails and
the provider performs no filesystem call at all (no bytes persisted),
but the error raised to the caller is the generic
`Failed to upload file` (500) wrapper, because the size validation
happens inside the provider's `uploadFile` whose catch-all replaces
the `File size is too small` validation error. -/
theorem uploadSingleFile_small_file_generic_error :
    ∀ (e : StorageEnvVars) (cfgL : LocalConfig) (cfgS : S3Config)
      (cfgC : CloudinaryConfig) (gen : GeneralConfig) (lenv : LocalEnv)
      (senv : S3Env) (cenv : CloudinaryEnv) (file : NamedFile)
      (st : Option String) (opts : UploadOptions),
      file.buffer.length < minFileSize →
      getStorageService e st = .ok .localRef →
      uploadSingleFile e cfgL cfgS cfgC gen lenv senv cenv file st opts
        = (.error ⟨"Failed to upload file", 500⟩, []) := by
  intro e cfgL cfgS cfgC gen lenv senv cenv file st opts hsmall hsel
  have hval : validateFileSize file.buffer.length cfgL.maxFileSize
      = .error ⟨"File size is too small", 400⟩ := by
    unfold validateFileSize
    rw [if_pos hsmall]
  have hup : localUploadFile cfgL gen lenv file.buffer file.originalname
      file.mimetype opts = (.error ⟨"Failed to upload file", 500⟩, []) := by
    unfold localUploadFile localUploadFileInner
    rw [hval]
  have hty : validateUploadType "single" (some "file")
      = .ok { fieldName := some "file", maxCount := some 1 } := rfl
  unfold uploadSingleFile
  rw [hty, hsel, hup]

/-- C2 (witness). -/
theorem uploadSingleFile_small_file_generic_error_witness :
    fixBuf100.length < minFileSize ∧
    getStorageService {} none = .ok .localRef ∧
    uploadSingleFile {} {} {} {} {} fixLocalEnv fixS3Env fixCloudEnv
        ⟨fixBuf100, "b.pdf", "application/pdf"⟩ none {}
      = (.error ⟨"Failed to upload file", 500⟩, []) :=
  ⟨by decide, rfl,
   uploadSingleFile_small_file_generic_error {} {} {} {} {} fixLocalEnv
     fixS3Env fixCloudEnv ⟨fixBuf100, "b.pdf", "application/pdf"⟩ none {}
     (by decide) rfl⟩

/-- Removing a path from the filesystem model makes it absent. -/
theorem pathExists_removeFS_self (fs : FileSystem) (p : String) :
    pathExistsFS (removeFS fs p) p = false := by
  unfold pathExistsFS removeFS
  simp

/-- Removing some other path keeps an absent path absent. -/
theorem pathExists_removeFS_mono (fs : FileSystem) (p q : String)
    (h : pathExistsFS fs p = false) :
    pathExistsFS (removeFS fs q) p = false := by
  simp only [pathExistsFS, removeFS] at h ⊢
  simp at h ⊢
  intro hc
  exact absurd hc h

/-- C3 (counterexample).  On a filesystem holding exactly the uploaded
file, the first delete succeeds and the second delete of the same
identifier throws the wrapped delete error (the provider raises 404
`File not found` internally and its catch-all rethrows it as 500). -/
theorem localDeleteFile_second_call_counterexample :
    localDeleteFile {} ["./uploads/general/x.png"] "/uploads/general/x.png"
      = (.ok true, []) ∧
    localDeleteFile {} [] "/uploads/general/x.png"
      = (.error ⟨"Failed to delete file", 500⟩, []) :=
  ⟨rfl, rfl⟩

/-- C3 (amended).  For the local provider, a second `deleteFile` with
the same identifier after a successful first delete always throws the
`Failed to delete file` (500) error — delete-of-missing is an error,
not an idempotent success — and leaves the filesystem unchanged. -/
theorem localDeleteFile_redelete_errors :
    ∀ (cfg : LocalConfig) (fs : FileSystem) (fileId : String)
      (fs1 : FileSystem),
      localDeleteFile cfg fs fileId = (.ok true, fs1) →
      localDeleteFile cfg fs1 fileId
        = (.error ⟨"Failed to delete file", 500⟩, fs1) := by
  intro cfg fs fileId fs1 h
  simp only [localDeleteFile, localDeleteFileInner] at h ⊢
  cases he : pathExistsFS fs (localResolvePath cfg fileId) with
  | false =>
      simp only [he, Bool.not_false, if_true] at h
      exact absurd (congrArg Prod.fst h) (by simp)
  | true =>
      simp only [he, Bool.not_true, Bool.false_eq_true, if_false] at h
      cases hthumb : pathExistsFS (removeFS fs (localResolvePath cfg fileId))
          (joinPath (dirnameOf (localResolvePath cfg fileId))
            ("thumb_" ++ basenameOf (localResolvePath cfg fileId))) with
      | true =>
          simp only [hthumb, if_true] at h
          have hfs1 := ((Prod.mk.injEq _ _ _ _).mp h).2
          have habsent : pathExistsFS fs1 (localResolvePath cfg fileId) = false := by
            rw [← hfs1]
            exact pathExists_removeFS_mono _ _ _
              (pathExists_removeFS_self fs (localResolvePath cfg fileId))
          simp [habsent]
      | false =>
          simp only [hthumb, Bool.false_eq_true, if_false] at h
          have hfs1 := ((Prod.mk.injEq _ _ _ _).mp h).2
          have habsent : pathExistsFS fs1 (localResolvePath cfg fileId) = false := by
            rw [← hfs1]
            exact pathExists_removeFS_self fs (localResolvePath cfg fileId)
          simp [habsent]

/-- C3 (witness for the amended theorem). -/
theorem localDeleteFile_redelete_errors_witness :
    localDeleteFile {} ["./uploads/general/y.png"] "/uploads/general/y.png"
      = (.ok true, []) ∧
    localDeleteFile {} [] "/uploads/general/y.png"
      = (.error ⟨"Failed to delete file", 500⟩, []) :=
  ⟨rfl, localDeleteFile_redelete_errors {} ["./uploads/general/y.png"]
    "/uploads/general/y.png" [] rfl⟩

/-- C9.  Requesting a provider explicitly never substitutes another
provider: an explicitly requested but unconfigured `s3` yields the
not-properly-configured error, any successful explicit selection
returns exactly the requested provider, and the local fallback happens
only in the one-time initialisation of the default (and only when the
configured default is unknown or fails its config validation). -/
theorem getStorageService_no_silent_fallback :
    (∀ e : StorageEnvVars, validS3 e = false →
       getStorageService e (some "s3")
         = .error ⟨"Storage service s3 is not properly configured", 500⟩) ∧
    (∀ (e : StorageEnvVars) (t : String) (r : StorageRef), t ≠ "" →
       getStorageService e (some t) = .ok r → refName r = t) ∧
    (∀ e : StorageEnvVars,
       serviceValidate e (rawDefaultStorage e) = some true →
       initializedDefaultStorage e = rawDefaultStorage e) ∧
    (∀ e : StorageEnvVars,
       serviceValidate e (rawDefaultStorage e) ≠ some true →
       initializedDefaultStorage e = "local") := by
  refine ⟨?_, ?_, ?_, ?_⟩
  · intro e h
    unfold getStorageService
    simp only [h]
    rfl
  · intro e t r ht h
    have hb : (t != "") = true := bne_iff_ne.mpr ht
    unfold getStorageService at h
    simp only [hb, if_true] at h
    by_cases h1 : (t == "local") = true
    · rw [if_pos h1] at h
      split at h
      · cases h; exact (beq_iff_eq.mp h1).symm
      · cases h
    · rw [if_neg h1] at h
      by_cases h2 : (t == "cloudinary") = true
      · rw [if_pos h2] at h
        split at h
        · cases h; exact (beq_iff_eq.mp h2).symm
        · cases h
      · rw [if_neg h2] at h
        by_cases h3 : (t == "s3") = true
        · rw [if_pos h3] at h
          split at h
          · cases h; exact (beq_iff_eq.mp h3).symm
          · cases h
        · rw [if_neg h3] at h
          cases h
  · intro e h
    unfold initializedDefaultStorage
    rw [h]
  · intro e h
    unfold initializedDefaultStorage
    cases hv : serviceValidate e (rawDefaultStorage e) with
    | none => rfl
    | some b =>
        cases b with
        | false => rfl
        | true => exact absurd hv h

/-- C9 (witness): with no credentials configured, `s3` is invalid and
an explicit request for it errors instead of falling back. -/
theorem getStorageService_no_silent_fallback_witness :
    validS3 {} = false ∧
    getStorageService {} (some "s3")
      = .error ⟨"Storage service s3 is not properly configured", 500⟩ :=
  ⟨rfl, getStorageService_no_silent_fallback.1 {} rfl⟩

/-- C10.  The Cloudinary delete treats the backend outcomes `ok` and
`not found` both as a successful (idempotent) deletion returning
`true`; every other backend outcome is raised as the wrapped delete
error. -/
theorem cloudinaryDeleteFile_ok_and_not_found :
    ∀ (destroy : String → Except String DestroyResponse) (fileId : String)
      (resp : DestroyResponse),
      destroy (cloudinaryResolvePublicId fileId) = .ok resp →
      ((resp.result = "ok" ∨ resp.result = "not found") →
         cloudinaryDeleteFile destroy fileId = .ok true) ∧
      (resp.result ≠ "ok" → resp.result ≠ "not found" →
         cloudinaryDeleteFile destroy fileId
           = .error ⟨"Failed to delete file from Cloudinary", 500⟩) := by
  intro destroy fileId resp h
  constructor
  · intro hr
    simp only [cloudinaryDeleteFile, h]
    rcases hr with hr | hr <;> simp [hr]
  · intro h1 h2
    simp only [cloudinaryDeleteFile, h]
    have hfalse : (resp.result == "ok" || resp.result == "not found") = false := by
      simp [h1, h2]
    rw [hfalse]
    rfl

/-- C10 (witness): a backend that reports `not found` makes the delete
an idempotent success. -/
theorem cloudinaryDeleteFile_ok_and_not_found_witness :
    (fun (_ : String) =>
        (Except.ok ⟨"not found"⟩ : Except String DestroyResponse))
      (cloudinaryResolvePublicId "someAsset") = .ok ⟨"not found"⟩ ∧
    cloudinaryDeleteFile
      (fun _ => Except.ok ⟨"not found"⟩) "someAsset" = .ok true :=
  ⟨rfl,
   (cloudinaryDeleteFile_ok_and_not_found
     (fun _ => Except.ok ⟨"not found"⟩) "someAsset" ⟨"not found"⟩ rfl).1
     (Or.inr rfl)⟩

/-- Auxiliary for C5: the local inner body already satisfies the
hash-of-original and size-of-original facts. -/
theorem localUploadFileInner_ok_fields (cfg : LocalConfig)
    (gen : GeneralConfig) (env : LocalEnv) (buf : Buffer)
    (fn mime : String) (opts : UploadOptions) (r : LocalUploadResult)
    (tr : List ExternalCall)
    (h : localUploadFileInner cfg gen env buf fn mime opts = (.ok r, tr)) :
    r.hash = env.hashFn buf ∧ r.size = buf.length := by
  unfold localUploadFileInner at h
  dsimp only at h
  repeat' split at h
  all_goals
    try (exact absurd ((Prod.mk.injEq _ _ _ _).mp h).1 (fun hh => Except.noConfusion hh))
  all_goals
    (obtain ⟨h1, -⟩ := (Prod.mk.injEq _ _ _ _).mp h
     injection h1 with h1
     subst h1
     exact ⟨rfl, rfl⟩)

/-- Auxiliary for C5: the S3 inner body already satisfies the
hash-of-original and size-of-original facts. -/
theorem s3UploadFileInner_ok_fields (cfg : S3Config) (gen : GeneralConfig)
    (env : S3Env) (buf : Buffer) (fn mime : String) (opts : UploadOptions)
    (r : S3UploadResult)
    (h : s3UploadFileInner cfg gen env buf fn mime opts = .ok r) :
    r.hash = env.hashFn buf ∧ r.size = buf.length := by
  unfold s3UploadFileInner at h
  dsimp only at h
  repeat' split at h
  all_goals
    try (exact absurd h (fun hh => Except.noConfusion hh))
  all_goals
    (injection h with h1
     subst h1
     exact ⟨rfl, rfl⟩)

/-- Auxiliary for C5: the Cloudinary inner body already satisfies the
hash-of-original and size-of-original facts. -/
theorem cloudinaryUploadFileInner_ok_fields (cfg : CloudinaryConfig)
    (env : CloudinaryEnv) (buf : Buffer) (fn mime : String)
    (opts : UploadOptions) (r : CloudinaryUploadResult)
    (h : cloudinaryUploadFileInner cfg env buf fn mime opts = .ok r) :
    r.hash = env.hashFn buf ∧ r.size = buf.length := by
  unfold cloudinaryUploadFileInner at h
  dsimp only at h
  repeat' split at h
  all_goals
    try (exact absurd h (fun hh => Except.noConfusion hh))
  all_goals
    (injection h with h1
     subst h1
     exact ⟨rfl, rfl⟩)

/-- C5.  On every successful upload, each of the three providers
reports the content hash computed over the original input buffer and
the size of the original buffer, independently of what the optimiser
did to the persisted bytes. -/
theorem uploadFile_hash_and_size_of_original :
    (∀ (cfg : LocalConfig) (gen : GeneralConfig) (env : LocalEnv)
       (buf : Buffer) (fn mime : String) (opts : UploadOptions)
       (r : LocalUploadResult) (tr : List ExternalCall),
       localUploadFile cfg gen env buf fn mime opts = (.ok r, tr) →
       r.hash = env.hashFn buf ∧ r.size = buf.length) ∧
    (∀ (cfg : S3Config) (gen : GeneralConfig) (env : S3Env)
       (buf : Buffer) (fn mime : String) (opts : UploadOptions)
       (r : S3UploadResult),
       s3UploadFile cfg gen env buf fn mime opts = .ok r →
       r.hash = env.hashFn buf ∧ r.size = buf.length) ∧
    (∀ (cfg : CloudinaryConfig) (env : CloudinaryEnv)
       (buf : Buffer) (fn mime : String) (opts : UploadOptions)
       (r : CloudinaryUploadResult),
       cloudinaryUploadFile cfg env buf fn mime opts = .ok r →
       r.hash = env.hashFn buf ∧ r.size = buf.length) := by
  refine ⟨?_, ?_, ?_⟩
  · intro cfg gen env buf fn mime opts r tr h
    unfold localUploadFile at h
    split at h
    next heq =>
        obtain ⟨h1, h2⟩ := (Prod.mk.injEq _ _ _ _).mp h
        injection h1 with h1
        subst h1; subst h2
        exact localUploadFileInner_ok_fields cfg gen env buf fn mime opts _ _ heq
    next => exact absurd ((Prod.mk.injEq _ _ _ _).mp h).1 (by simp)
  · intro cfg gen env buf fn mime opts r h
    unfold s3UploadFile at h
    split at h
    next heq =>
        injection h with h1
        subst h1
        exact s3UploadFileInner_ok_fields cfg gen env buf fn mime opts _ heq
    next => exact absurd h (by simp)
  · intro cfg env buf fn mime opts r h
    unfold cloudinaryUploadFile at h
    split at h
    next heq =>
        injection h with h1
        subst h1
        exact cloudinaryUploadFileInner_ok_fields cfg env buf fn mime opts _ heq
    next => exact absurd h (by simp)

/-- The local result of a concrete successful upload, extracted from
the model run. -/
def c5LocalRes : LocalUploadResult :=
  match (localUploadFile {} {} fixLocalEnv fixBuf1024 "a.pdf"
      "application/pdf" {}).1 with
  | .ok r => r
  | .error _ =>
      { success := false, filename := "", originalName := "", mimeType := ""
      , size := 0, path := "", url := "", thumbnailUrl := none, hash := ""
      , uploadType := "", storageType := "", uploadedAt := "" }

/-- The filesystem calls of the same concrete local upload. -/
def c5LocalTrace : List ExternalCall :=
  (localUploadFile {} {} fixLocalEnv fixBuf1024 "a.pdf"
    "application/pdf" {}).2

/-- The S3 result of a concrete successful upload. -/
def c5S3Res : S3UploadResult :=
  match s3UploadFile {} {} fixS3Env fixBuf1024 "a.pdf"
      "application/pdf" {} with
  | .ok r => r
  | .error _ =>
      { success := false, filename := "", originalName := "", mimeType := ""
      , size := 0, url := "", thumbnailUrl := none, s3Key := ""
      , thumbnailS3Key := none, etag := "", versionId := "", hash := ""
      , uploadType := "", storageType := "", uploadedAt := "" }

/-- The Cloudinary result of a concrete successful upload. -/
def c5CloudRes : CloudinaryUploadResult :=
  match cloudinaryUploadFile {} fixCloudEnv fixBuf1024 "a.pdf"
      "application/pdf" {} with
  | .ok r => r
  | .error _ =>
      { success := false, filename := "", originalName := "", mimeType := ""
      , size := 0, url := "", thumbnailUrl := none, publicId := ""
      , assetId := "", version := 0, hash := "", uploadType := ""
      , storageType := "", uploadedAt := "" }

set_option maxRecDepth 16384 in
/-- C5 (witness): a concrete successful upload on each provider,
checked against the theorem. -/
theorem uploadFile_hash_and_size_of_original_witness :
    (localUploadFile {} {} fixLocalEnv fixBuf1024 "a.pdf"
        "application/pdf" {} = (.ok c5LocalRes, c5LocalTrace) ∧
      c5LocalRes.hash = fixLocalEnv.hashFn fixBuf1024 ∧
      c5LocalRes.size = fixBuf1024.length) ∧
    (s3UploadFile {} {} fixS3Env fixBuf1024 "a.pdf"
        "application/pdf" {} = .ok c5S3Res ∧
      c5S3Res.hash = fixS3Env.hashFn fixBuf1024 ∧
      c5S3Res.size = fixBuf1024.length) ∧
    (cloudinaryUploadFile {} fixCloudEnv fixBuf1024 "a.pdf"
        "application/pdf" {} = .ok c5CloudRes ∧
      c5CloudRes.hash = fixCloudEnv.hashFn fixBuf1024 ∧
      c5CloudRes.size = fixBuf1024.length) :=
  ⟨⟨rfl, uploadFile_hash_and_size_of_original.1 {} {} fixLocalEnv fixBuf1024
      "a.pdf" "application/pdf" {} c5LocalRes c5LocalTrace rfl⟩,
   ⟨rfl, uploadFile_hash_and_size_of_original.2.1 {} {} fixS3Env fixBuf1024
      "a.pdf" "application/pdf" {} c5S3Res rfl⟩,
   ⟨rfl, uploadFile_hash_and_size_of_original.2.2 {} fixCloudEnv fixBuf1024
      "a.pdf" "application/pdf" {} c5CloudRes rfl⟩⟩

set_option maxRecDepth 4096 in
/-- C8.  Image optimisation is best-effort and never upload-blocking:
a failing transform makes `optimizeImage` return the original,
byte-identical buffer (it is a total function, so no error can
propagate), and the enclosing local upload behaves exactly as if the
transform had been the identity. -/
theorem optimizeImage_failure_never_blocks_upload :
    (∀ (en : Bool) (tf : Buffer → Except String Buffer) (buf : Buffer)
       (e : String), tf buf = .error e → optimizeImage en tf buf = buf) ∧
    (∀ (cfg : LocalConfig) (gen : GeneralConfig)
       (hf : Buffer → String) (ttf : Buffer → Except String Buffer)
       (edr : String → Except String Unit)
       (wfr : String → Buffer → Except String Unit)
       (ts : Nat) (tok now : String) (efail : Buffer → String)
       (buf : Buffer) (fn mime : String) (opts : UploadOptions),
       localUploadFile cfg gen
           ⟨hf, fun b => .error (efail b), ttf, edr, wfr, ts, tok, now⟩
           buf fn mime opts
         = localUploadFile cfg gen
             ⟨hf, fun b => .ok b, ttf, edr, wfr, ts, tok, now⟩
             buf fn mime opts) := by
  have hopt : ∀ (en : Bool) (tf : Buffer → Except String Buffer)
      (buf : Buffer) (e : String),
      tf buf = .error e → optimizeImage en tf buf = buf := by
    intro en tf buf e h
    cases en <;> simp [optimizeImage, h]
  refine ⟨hopt, ?_⟩
  intro cfg gen hf ttf edr wfr ts tok now efail buf fn mime opts
  have key : ∀ (en : Bool) (b : Buffer),
      optimizeImage en (fun x => Except.error (efail x)) b
        = optimizeImage en (fun x => Except.ok x) b := by
    intro en b
    cases en <;> simp [optimizeImage]
  have hproc :
      processedBufferFor gen
          ⟨hf, fun b => .error (efail b), ttf, edr, wfr, ts, tok, now⟩
          mime opts buf
        = processedBufferFor gen
            ⟨hf, fun b => .ok b, ttf, edr, wfr, ts, tok, now⟩
            mime opts buf := by
    simp only [processedBufferFor, key]
  unfold localUploadFile localUploadFileInner
  dsimp only
  rw [hproc]

/-- C8 (witness): a transform that always fails leaves a concrete
buffer untouched, and the concrete local upload with the failing
transform equals the one with the identity transform. -/
theorem optimizeImage_failure_never_blocks_upload_witness :
    (fun (_ : Buffer) =>
        (Except.error "sharp blew up" : Except String Buffer)) [1, 2, 3]
      = .error "sharp blew up" ∧
    optimizeImage true (fun _ => Except.error "sharp blew up") [1, 2, 3]
      = [1, 2, 3] ∧
    localUploadFile {} {}
        ⟨fixHash, fun _ => Except.error "boom", fun b => Except.ok b,
         fun _ => Except.ok (), fun _ _ => Except.ok (), 111, "dead", "2026"⟩
        fixBuf1024 "c.png" "image/png" {}
      = localUploadFile {} {}
          ⟨fixHash, fun b => Except.ok b, fun b => Except.ok b,
           fun _ => Except.ok (), fun _ _ => Except.ok (), 111, "dead", "2026"⟩
          fixBuf1024 "c.png" "image/png" {} :=
  ⟨rfl,
   (optimizeImage_failure_never_blocks_upload.1 true
     (fun _ => Except.error "sharp blew up") [1, 2, 3] "sharp blew up" rfl),
   (optimizeImage_failure_never_blocks_upload.2 {} {} fixHash
     (fun b => Except.ok b) (fun _ => Except.ok ()) (fun _ _ => Except.ok ())
     111 "dead" "2026" (fun _ => "boom") fixBuf1024 "c.png" "image/png" {})⟩

end Acadeno
